import Mathlib

/-!
Verification of the political-profile backend (FastAPI + pydantic + document
store). The Python sources `src/main.py` and `src/schemas.py` are shallowly
embedded below: pydantic models become structures together with boolean
validators that mirror the `Field` constraints, request handlers become pure
functions over an explicit system state, and the effects that may fail at
runtime (disk writes, document-store calls) are passed in as `Except` values
so that every control path of the Python `try`/`except` blocks is represented.
-/

set_option autoImplicit false

namespace ProfilBackend

/-! ### Data model (src/schemas.py)

Each pydantic model is a structure; its `Field` length/format constraints are
captured by a boolean validity predicate.  Pydantic validates on construction,
which the embedding mirrors by `parse…` functions (used where FastAPI parses a
request body into the model) and by `mkVideoItem` (used where `main.py` calls
the `VideoItem` constructor directly).  The `EmailStr` format check is an
opaque library validator; it is threaded through as a boolean function
`emailOk` so that theorems hold for every choice of email validator. -/

/-- `ContactMessage`: name 2–100 chars, email `EmailStr`, message 5–2000 chars. -/
structure ContactMessage where
  name : String
  email : String
  message : String
deriving DecidableEq, Repr

/-- `ChatMessage`: name 2–60 chars, content 1–500 chars. -/
structure ChatMessage where
  name : String
  content : String
deriving DecidableEq, Repr

/-- `VideoItem`: title 2–140 chars, url required, thumbnail optional,
description optional with at most 500 chars, created_at optional. -/
structure VideoItem where
  title : String
  url : String
  thumbnail : Option String
  description : Option String
  created_at : Option String
deriving DecidableEq, Repr

/-- The `Field` constraints of `ContactMessage` (schemas.py lines 48–50). -/
def contactConstraintsOk (emailOk : String → Bool) (m : ContactMessage) : Bool :=
  2 ≤ m.name.length && m.name.length ≤ 100 &&
  emailOk m.email &&
  5 ≤ m.message.length && m.message.length ≤ 2000

/-- The `Field` constraints of `ChatMessage` (schemas.py lines 57–58). -/
def chatConstraintsOk (m : ChatMessage) : Bool :=
  2 ≤ m.name.length && m.name.length ≤ 60 &&
  1 ≤ m.content.length && m.content.length ≤ 500

/-- The `Field` constraints of `VideoItem` (schemas.py lines 65–69): only
`title` and `description` carry length bounds. -/
def videoConstraintsOk (title : String) (description : Option String) : Bool :=
  2 ≤ title.length && title.length ≤ 140 &&
  (match description with
   | Option.some d => d.length ≤ 500
   | Option.none => true)

/-- FastAPI body parsing of a `ContactMessage`: pydantic validation succeeds
iff the field constraints hold. -/
def parseContactMessage (emailOk : String → Bool) (name email message : String) :
    Option ContactMessage :=
  if contactConstraintsOk emailOk ⟨name, email, message⟩ then
    Option.some ⟨name, email, message⟩
  else Option.none

/-- FastAPI body parsing of a `ChatMessage`. -/
def parseChatMessage (name content : String) : Option ChatMessage :=
  if chatConstraintsOk ⟨name, content⟩ then Option.some ⟨name, content⟩
  else Option.none

/-- FastAPI body parsing of a `VideoItem` (metadata-only create). -/
def parseVideoItem (title url : String)
    (thumbnail description created_at : Option String) : Option VideoItem :=
  if videoConstraintsOk title description then
    Option.some ⟨title, url, thumbnail, description, created_at⟩
  else Option.none

/-- The pydantic `VideoItem(...)` constructor as called inside `list_videos`
(main.py lines 122–128): raises a `ValidationError` when a constraint fails,
which the surrounding handler turns into a 500. -/
def mkVideoItem (title url : String)
    (thumbnail description created_at : Option String) : Except String VideoItem :=
  if videoConstraintsOk title description then
    Except.ok ⟨title, url, thumbnail, description, created_at⟩
  else Except.error "validation error"

/-! ### Python `pathlib` / `str` helpers used by main.py -/

/-- Split a character list on a separator character (the groups between
separators, in order). -/
def splitOnChar (sep : Char) : List Char → List (List Char)
  | [] => [[]]
  | c :: cs =>
    let r := splitOnChar sep cs
    if c = sep then [] :: r
    else
      match r with
      | [] => [[c]]
      | g :: gs => (c :: g) :: gs

/-- `Path(p).name`: the final path component (trailing slashes and empty
components dropped, as in `pathlib`). -/
def pyName (p : String) : String :=
  match ((splitOnChar '/' p.toList).filter (fun c => c ≠ [])).getLast? with
  | Option.some s => String.mk s
  | Option.none => ""

/-- `Path(p).suffix`: the final component's extension, dot included.  CPython
computes `i = name.rfind('.')` and returns `name[i:]` when `0 < i < len-1`,
else the empty string. -/
def pySuffix (p : String) : String :=
  let cs := (pyName p).toList
  let n := cs.length
  let dotIdxs := (List.range n).filter (fun i => cs.getD i ' ' == '.')
  match dotIdxs.getLast? with
  | Option.some i => if 0 < i ∧ i < n - 1 then String.mk (cs.drop i) else ""
  | Option.none => ""

/-- Python `str.lower` restricted to the ASCII range (the only case the
allowed-extension comparison can distinguish). -/
def pyLower (s : String) : String :=
  String.mk (s.toList.map Char.toLower)

/-- Python slicing `s[:n]`: the first `n` characters of a string. -/
def pyTake (s : String) (n : Nat) : String :=
  String.mk (s.toList.take n)

/-! ### Document store adapter

`database.py` is imported by `main.py` but is not part of the reviewed
sources; only its interface is specified. -/

/-- Modelled from the spec: `get_documents(collection, filter, limit)` of the
document store adapter (`database.py`, not among the sources) — §4.5 of the
spec describes it as returning at most `limit` records of the collection for
an unfiltered query, in store-determined order (here: the stored order). -/
def get_documents {α : Type} (stored : List α) (limit : Nat) : List α :=
  stored.take limit

/-- A record passed to `create_document("videoitem", payload)` on the upload
path (main.py lines 156–161): a raw dict, not a validated `VideoItem`. -/
structure VideoPayload where
  title : String
  url : String
  description : String
  thumbnail : Option String
deriving DecidableEq, Repr

/-- The observable state touched by the handlers: files written into
`UPLOAD_DIR`, and the records passed to `create_document` per collection
(appended when the store call succeeds). -/
structure SysState where
  files : List String
  contactDocs : List ContactMessage
  chatDocs : List ChatMessage
  videoItemDocs : List VideoItem
  videoDocs : List VideoPayload
deriving DecidableEq, Repr

def SysState.init : SysState := ⟨[], [], [], [], []⟩

/-- An HTTP response: either a success payload or an `HTTPException` with a
status code and detail message (FastAPI body-validation failures are also
4xx errors and are represented the same way). -/
inductive Resp (α : Type) where
  | ok : α → Resp α
  | err : Nat → String → Resp α
deriving DecidableEq, Repr

/-! ### Handlers (src/main.py)

Each handler takes the outcome of its effectful collaborators as explicit
`Except` arguments: `createResult` is what `create_document` returns or
raises, `writeResult` is the outcome of the disk write, `queryResult` is what
`get_documents` returns or raises. -/

/-- `POST /api/contact` (main.py lines 79–85), including FastAPI's pydantic
body validation: an invalid body is rejected with a 422 before the handler
runs. -/
def post_contact (emailOk : String → Bool) (createResult : Except String String)
    (name email message : String) (st : SysState) : Resp String × SysState :=
  match parseContactMessage emailOk name email message with
  | Option.none => (Resp.err 422 "validation error", st)
  | Option.some msg =>
    match createResult with
    | Except.error e => (Resp.err 500 e, st)
    | Except.ok doc_id =>
      (Resp.ok doc_id, { st with contactDocs := st.contactDocs ++ [msg] })

/-- `POST /api/chat` (main.py lines 102–108), including body validation. -/
def post_chat_message (createResult : Except String String)
    (name content : String) (st : SysState) : Resp String × SysState :=
  match parseChatMessage name content with
  | Option.none => (Resp.err 422 "validation error", st)
  | Option.some msg =>
    match createResult with
    | Except.error e => (Resp.err 500 e, st)
    | Except.ok doc_id =>
      (Resp.ok doc_id, { st with chatDocs := st.chatDocs ++ [msg] })

/-- `POST /api/videos` (main.py lines 133–139), the metadata-only create,
including body validation. -/
def create_video (createResult : Except String String) (title url : String)
    (thumbnail description created_at : Option String) (st : SysState) :
    Resp String × SysState :=
  match parseVideoItem title url thumbnail description created_at with
  | Option.none => (Resp.err 422 "validation error", st)
  | Option.some item =>
    match createResult with
    | Except.error e => (Resp.err 500 e, st)
    | Except.ok vid =>
      (Resp.ok vid, { st with videoItemDocs := st.videoItemDocs ++ [item] })

/-- The allowed upload extensions (main.py line 147). -/
def allowedExts : List String := [".mp4", ".mov", ".webm", ".mkv", ".avi"]

/-- The 400 detail message for an unsupported extension (main.py line 148). -/
def unsupportedFormatDetail : String := "Podporované formáty: mp4, mov, webm, mkv, avi"

/-- `POST /api/videos/upload` (main.py lines 142–167).  `uuidHex` is the
random hex of `uuid.uuid4().hex`; `writeResult` is the outcome of the disk
write of the file content; `createResult` is the outcome of
`create_document("videoitem", payload)`.  The `except HTTPException: raise`
arm re-raises the 400 unchanged, and the `except Exception` arm turns every
other failure into a 500 carrying the underlying message. -/
def upload_video (uuidHex : String) (writeResult : Except String Unit)
    (createResult : Except String String) (title : String)
    (description : Option String) (filename : String) (st : SysState) :
    Resp (String × VideoPayload) × SysState :=
  let ext := pyLower (pySuffix filename)
  if ext ∈ allowedExts then
    let safe_name := uuidHex ++ ext
    match writeResult with
    | Except.error e => (Resp.err 500 e, st)
    | Except.ok _ =>
      let st1 := { st with files := st.files ++ [safe_name] }
      let url_path := "/uploads/videos/" ++ safe_name
      let payload : VideoPayload :=
        ⟨title, url_path, (description.getD ""), Option.none⟩
      match createResult with
      | Except.error e => (Resp.err 500 e, st1)
      | Except.ok doc_id =>
        (Resp.ok (doc_id, payload),
         { st1 with videoDocs := st1.videoDocs ++ [payload] })
  else (Resp.err 400 unsupportedFormatDetail, st)

/-! ### List handlers -/

/-- A chat record as stored in the document store: either field may be
missing (`d.get` with a default in the handler). -/
structure StoredChatDoc where
  name : Option String
  content : Option String
deriving DecidableEq, Repr

/-- The shape of a `{name, content}` dict built by `get_chat_messages`. -/
structure ChatOut where
  name : String
  content : String
deriving DecidableEq, Repr

/-- `GET /api/chat` (main.py lines 88–100): queries the store with no filter
and the caller's limit (default 30), and normalizes each record with
`d.get("name", "Anonym")` and `d.get("content", "")`.  The route is declared
with `response_model=List[ChatMessage]` (main.py line 88), so after the
handler returns, FastAPI validates every record against the `ChatMessage`
constraints (name 2–60 chars, content 1–500 chars); a record failing them —
outside the handler's `try`/`except` — turns the request into a 500 server
error. -/
def get_chat_messages (limit : Nat)
    (queryResult : Except String (List StoredChatDoc)) :
    Except (Nat × String) (List ChatOut) :=
  match queryResult with
  | Except.error e => Except.error (500, e)
  | Except.ok stored =>
    let cleaned := (get_documents stored limit).map
      (fun d => (⟨d.name.getD "Anonym", d.content.getD ""⟩ : ChatOut))
    if cleaned.all (fun c => chatConstraintsOk ⟨c.name, c.content⟩) then
      Except.ok cleaned
    else Except.error (500, "response validation error")

/-- The stored `created_at` of a video record: a native datetime (represented
by its `isoformat()` string; a datetime object is always truthy) or a raw
string. -/
inductive StoredTime where
  | dt : String → StoredTime
  | str : String → StoredTime
deriving DecidableEq, Repr

/-- A video record as stored in the document store: any field may be
missing. -/
structure StoredVideoDoc where
  title : Option String
  url : Option String
  thumbnail : Option String
  description : Option String
  created_at : Option StoredTime
deriving DecidableEq, Repr

/-- The timestamp normalization of main.py lines 117–121: a datetime becomes
its ISO string, a truthy value is passed through `str`, a falsy value (absent
or the empty string) becomes `None`. -/
def normalizeCreated : Option StoredTime → Option String
  | Option.some (StoredTime.dt iso) => Option.some iso
  | Option.some (StoredTime.str s) =>
    if s ≠ "" then Option.some s else Option.none
  | Option.none => Option.none

/-- The loop body of `list_videos` (main.py lines 116–128): each stored
record is normalized and passed to the pydantic `VideoItem` constructor; the
first constructor failure raises out of the loop. -/
def buildItems : List StoredVideoDoc → Except String (List VideoItem)
  | [] => Except.ok []
  | d :: rest =>
    match mkVideoItem (d.title.getD "") (d.url.getD "") d.thumbnail
        d.description (normalizeCreated d.created_at) with
    | Except.error e => Except.error e
    | Except.ok item =>
      match buildItems rest with
      | Except.error e => Except.error e
      | Except.ok items => Except.ok (item :: items)

/-- `GET /api/videos` (main.py lines 111–131): query with the caller's limit
(default 50), normalize each record; any exception — including a
`ValidationError` from the `VideoItem` constructor — becomes a 500. -/
def list_videos (limit : Nat)
    (queryResult : Except String (List StoredVideoDoc)) :
    Except (Nat × String) (List VideoItem) :=
  match queryResult with
  | Except.error e => Except.error (500, e)
  | Except.ok stored =>
    match buildItems (get_documents stored limit) with
    | Except.error e => Except.error (500, e)
    | Except.ok items => Except.ok items

/-! ### Diagnostic endpoint -/

/-- The `db` handle as seen by `test_database`: whether it has a `name`
attribute, and what `list_collection_names()` returns or raises. -/
structure DbHandle where
  hasName : Bool
  name : String
  listCollectionsResult : Except String (List String)

/-- The response dict of `GET /test`; `database_url` and `database_name`
start as `None`, hence `Option String`. -/
structure TestResponse where
  backend : String
  database : String
  database_url : Option String
  database_name : Option String
  connection_status : String
  collections : List String
deriving DecidableEq, Repr

/-- `GET /test` (main.py lines 169–202).  `db` is `none` when the module's
`db` handle is `None`; `urlSet`/`nameSet` reflect the `DATABASE_URL` and
`DATABASE_NAME` environment variables.  Both `try` blocks catch every
exception and write a diagnostic string into the response, which is returned
with status 200 on every path. -/
def test_database (db : Option DbHandle) (urlSet nameSet : Bool) :
    Nat × TestResponse :=
  let r0 : TestResponse :=
    ⟨"✅ Running", "❌ Not Available", Option.none, Option.none,
     "Not Connected", []⟩
  let r1 :=
    match db with
    | Option.some h =>
      let r := { r0 with
        database := "✅ Available"
        database_url := Option.some "✅ Configured"
        database_name :=
          Option.some (if h.hasName then h.name else "✅ Connected")
        connection_status := "Connected" }
      match h.listCollectionsResult with
      | Except.ok collections =>
        { r with collections := collections.take 10
                 database := "✅ Connected & Working" }
      | Except.error e =>
        { r with database := "⚠️  Connected but Error: " ++ pyTake e 50 }
    | Option.none => { r0 with database := "⚠️  Available but not initialized" }
  (200, { r1 with
    database_url := Option.some (if urlSet then "✅ Set" else "❌ Not Set")
    database_name := Option.some (if nameSet then "✅ Set" else "❌ Not Set") })

/-! ### Helper lemmas -/

theorem append_ne_empty_of_ne (s t : String) (h : s.data ≠ []) : s ++ t ≠ "" := by
  intro heq
  have hd := congrArg String.data heq
  rw [String.data_append] at hd
  exact h (List.append_eq_nil.mp hd).1

theorem parseContactMessage_sound (emailOk : String → Bool)
    (name email message : String) (m : ContactMessage)
    (h : parseContactMessage emailOk name email message = Option.some m) :
    contactConstraintsOk emailOk m = true := by
  unfold parseContactMessage at h
  split at h
  · cases h; assumption
  · cases h

theorem parseChatMessage_sound (name content : String) (m : ChatMessage)
    (h : parseChatMessage name content = Option.some m) :
    chatConstraintsOk m = true := by
  unfold parseChatMessage at h
  split at h
  · cases h; assumption
  · cases h

theorem parseVideoItem_sound (title url : String)
    (thumbnail description created_at : Option String) (it : VideoItem)
    (h : parseVideoItem title url thumbnail description created_at = Option.some it) :
    videoConstraintsOk it.title it.description = true := by
  unfold parseVideoItem at h
  split at h
  · cases h; assumption
  · cases h

/-- Sanity checks that the embedded `Path(...).suffix.lower()` agrees with
CPython on representative inputs: extension of the last component only, dot
included, a leading dot is not an extension, a trailing dot yields none. -/
theorem pySuffix_matches_cpython :
    pySuffix "video.MP4" = ".MP4" ∧
    pyLower (pySuffix "dir/video.MP4") = ".mp4" ∧
    pySuffix ".bashrc" = "" ∧
    pySuffix "archive.tar.gz" = ".gz" ∧
    pySuffix "name." = "" ∧
    pySuffix "noext" = "" := by
  refine ⟨by decide, by decide, by decide, by decide, by decide, by decide⟩

/-! ### Claims about the upload endpoint -/

/-- Claim C1: an upload whose file extension (taken case-insensitively) is not
in {mp4, mov, webm, mkv, avi} is rejected with status 400 and a message naming
the allowed formats, and neither a file write nor a metadata record creation
occurs (the state is unchanged), whatever the disk and store would have
done. -/
theorem C1_upload_rejects_unsupported_extension
    (uuidHex : String) (writeResult : Except String Unit)
    (createResult : Except String String) (title : String)
    (description : Option String) (filename : String) (st : SysState)
    (h : pyLower (pySuffix filename) ∉ allowedExts) :
    upload_video uuidHex writeResult createResult title description filename st
      = (Resp.err 400 unsupportedFormatDetail, st) := by
  simp [upload_video, h]

theorem C1_witness :
    pyLower (pySuffix "notes.txt") ∉ allowedExts ∧
    upload_video "9f3c" (Except.ok ()) (Except.ok "id1") "A title"
        Option.none "notes.txt" SysState.init
      = (Resp.err 400 unsupportedFormatDetail, SysState.init) :=
  ⟨by decide,
   C1_upload_rejects_unsupported_extension "9f3c" (Except.ok ())
     (Except.ok "id1") "A title" Option.none "notes.txt" SysState.init
     (by decide)⟩

/-- Claim C2: for every accepted upload the stored filename is exactly the
generated hex identifier concatenated with the lowercased extension of the
caller's filename, and the persisted url is "/uploads/videos/" joined with
that filename; the caller's filename influences the result only through its
lowercased extension (the right-hand side mentions nothing else of it).  The
witness shows an upload with extension ".MP4" succeeding with a stored url
ending in ".mp4". -/
theorem C2_upload_filename_and_url_shape
    (uuidHex doc_id title : String) (description : Option String)
    (filename extLower : String) (st : SysState)
    (hext : pyLower (pySuffix filename) = extLower)
    (hallowed : extLower ∈ allowedExts) :
    upload_video uuidHex (Except.ok ()) (Except.ok doc_id) title description
        filename st
      = (Resp.ok (doc_id,
           ⟨title, "/uploads/videos/" ++ (uuidHex ++ extLower),
            description.getD "", Option.none⟩),
         { st with
             files := st.files ++ [uuidHex ++ extLower]
             videoDocs := st.videoDocs ++
               [⟨title, "/uploads/videos/" ++ (uuidHex ++ extLower),
                 description.getD "", Option.none⟩] }) := by
  subst hext
  simp [upload_video, hallowed]

theorem C2_witness :
    pyLower (pySuffix "video.MP4") = ".mp4" ∧
    upload_video "a1b2" (Except.ok ()) (Except.ok "id7") "My title"
        Option.none "video.MP4" SysState.init
      = (Resp.ok ("id7",
           ⟨"My title", "/uploads/videos/" ++ ("a1b2" ++ ".mp4"), "",
            Option.none⟩),
         { SysState.init with
             files := ["a1b2" ++ ".mp4"]
             videoDocs := [⟨"My title",
               "/uploads/videos/" ++ ("a1b2" ++ ".mp4"), "", Option.none⟩] }) ∧
    ("/uploads/videos/" ++ ("a1b2" ++ ".mp4")) = "/uploads/videos/a1b2" ++ ".mp4" :=
  ⟨by decide,
   C2_upload_filename_and_url_shape "a1b2" "id7" "My title" Option.none
     "video.MP4" ".mp4" SysState.init (by decide) (by decide),
   by decide⟩

/-- Claim C4: every accepted upload persists a record with the caller's
title, the generated non-empty server-hosted url, the caller's description
(or "" when absent) and a null thumbnail, and the response carries the
store-generated id together with that same persisted payload. -/
theorem C4_upload_persists_and_returns_payload
    (uuidHex doc_id title : String) (description : Option String)
    (filename : String) (st : SysState)
    (h : pyLower (pySuffix filename) ∈ allowedExts) :
    ∃ payload : VideoPayload,
      upload_video uuidHex (Except.ok ()) (Except.ok doc_id) title description
          filename st
        = (Resp.ok (doc_id, payload),
           { st with
               files := st.files ++ [uuidHex ++ pyLower (pySuffix filename)]
               videoDocs := st.videoDocs ++ [payload] }) ∧
      payload.title = title ∧
      payload.url = "/uploads/videos/" ++ (uuidHex ++ pyLower (pySuffix filename)) ∧
      payload.url ≠ "" ∧
      payload.description = description.getD "" ∧
      payload.thumbnail = Option.none := by
  refine ⟨⟨title, "/uploads/videos/" ++ (uuidHex ++ pyLower (pySuffix filename)),
     description.getD "", Option.none⟩, ?_, rfl, rfl, ?_, rfl, rfl⟩
  · simp [upload_video, h]
  · exact append_ne_empty_of_ne _ _ (by decide)

theorem C4_witness :
    pyLower (pySuffix "clip.webm") ∈ allowedExts ∧
    ∃ payload : VideoPayload,
      upload_video "77aa" (Except.ok ()) (Except.ok "id9") "Debate night"
          (Option.some "full recording") "clip.webm" SysState.init
        = (Resp.ok ("id9", payload),
           { SysState.init with
               files := SysState.init.files ++
                 ["77aa" ++ pyLower (pySuffix "clip.webm")]
               videoDocs := SysState.init.videoDocs ++ [payload] }) ∧
      payload.title = "Debate night" ∧
      payload.url = "/uploads/videos/" ++
        ("77aa" ++ pyLower (pySuffix "clip.webm")) ∧
      payload.url ≠ "" ∧
      payload.description = (Option.some "full recording").getD "" ∧
      payload.thumbnail = Option.none :=
  ⟨by decide,
   C4_upload_persists_and_returns_payload "77aa" "id9" "Debate night"
     (Option.some "full recording") "clip.webm" SysState.init (by decide)⟩

/-- Claim C8: in the upload handler a format-rejection 400 is re-raised
as-is, while a disk-write failure or a store failure surfaces as a 500
carrying the underlying message; when the store call fails after a
successful file write, the written file remains in the state (no cleanup),
and no metadata record is added. -/
theorem C8_upload_error_paths
    (uuidHex title : String) (description : Option String)
    (filename e : String) (writeResult : Except String Unit)
    (createResult : Except String String) (st : SysState) :
    (pyLower (pySuffix filename) ∉ allowedExts →
      upload_video uuidHex writeResult createResult title description
          filename st
        = (Resp.err 400 unsupportedFormatDetail, st)) ∧
    (pyLower (pySuffix filename) ∈ allowedExts →
      upload_video uuidHex (Except.error e) createResult title description
          filename st
        = (Resp.err 500 e, st)) ∧
    (pyLower (pySuffix filename) ∈ allowedExts →
      upload_video uuidHex (Except.ok ()) (Except.error e) title description
          filename st
        = (Resp.err 500 e,
           { st with
               files := st.files ++ [uuidHex ++ pyLower (pySuffix filename)] })) := by
  refine ⟨?_, ?_, ?_⟩
  · intro h; simp [upload_video, h]
  · intro h; simp [upload_video, h]
  · intro h; simp [upload_video, h]

theorem C8_witness :
    upload_video "u1" (Except.ok ()) (Except.ok "i") "Title" Option.none
        "talk.exe" SysState.init
      = (Resp.err 400 unsupportedFormatDetail, SysState.init) ∧
    upload_video "u1" (Except.error "disk full") (Except.ok "i") "Title"
        Option.none "talk.mp4" SysState.init
      = (Resp.err 500 "disk full", SysState.init) ∧
    upload_video "u1" (Except.ok ()) (Except.error "db down") "Title"
        Option.none "talk.mp4" SysState.init
      = (Resp.err 500 "db down",
         { SysState.init with
             files := SysState.init.files ++
               ["u1" ++ pyLower (pySuffix "talk.mp4")] }) :=
  ⟨(C8_upload_error_paths "u1" "Title" Option.none "talk.exe" "disk full"
      (Except.ok ()) (Except.ok "i") SysState.init).1 (by decide),
   (C8_upload_error_paths "u1" "Title" Option.none "talk.mp4" "disk full"
      (Except.ok ()) (Except.ok "i") SysState.init).2.1 (by decide),
   (C8_upload_error_paths "u1" "Title" Option.none "talk.mp4" "db down"
      (Except.ok ()) (Except.error "db down") SysState.init).2.2 (by decide)⟩

/-! ### Claims about constraint enforcement before persistence -/

/-- Claim C3 (counterexample): the upload path persists a raw dict without
re-validating the `VideoItem` length constraints.  A title of length 1 —
violating the 2–140 character bound — reaches the store: after this upload
the videoitem collection holds exactly one record, whose title is "x", and
that title/description pair fails the `VideoItem` constraints. -/
theorem C3_counterexample :
    (upload_video "u1" (Except.ok ()) (Except.ok "id1") "x" Option.none
        "clip.mp4" SysState.init).2.videoDocs
      = [⟨"x", "/uploads/videos/u1.mp4", "", Option.none⟩] ∧
    videoConstraintsOk "x" (Option.some "") = false ∧
    videoConstraintsOk "x" Option.none = false := by
  refine ⟨by decide, by decide, by decide⟩

/-- Claim C3 (amended): on the contact, chat and metadata-only video create
paths every record handed to the document store satisfies the length/format
constraints of its pydantic model, and a body failing validation is rejected
with no state change; the upload path, however, persists the raw form fields
without checking the `VideoItem` title/description bounds (see the
counterexample). -/
theorem C3_amended_validated_paths_enforce_constraints
    (emailOk : String → Bool) (cr : Except String String)
    (name email message content title url : String)
    (thumbnail description created_at : Option String) (st : SysState) :
    (∀ m ∈ (post_contact emailOk cr name email message st).2.contactDocs,
        m ∈ st.contactDocs ∨ contactConstraintsOk emailOk m = true) ∧
    (parseContactMessage emailOk name email message = Option.none →
        (post_contact emailOk cr name email message st).2 = st) ∧
    (∀ m ∈ (post_chat_message cr name content st).2.chatDocs,
        m ∈ st.chatDocs ∨ chatConstraintsOk m = true) ∧
    (parseChatMessage name content = Option.none →
        (post_chat_message cr name content st).2 = st) ∧
    (∀ it ∈ (create_video cr title url thumbnail description created_at st).2.videoItemDocs,
        it ∈ st.videoItemDocs ∨
          videoConstraintsOk it.title it.description = true) ∧
    (parseVideoItem title url thumbnail description created_at = Option.none →
        (create_video cr title url thumbnail description created_at st).2 = st) := by
  refine ⟨?_, ?_, ?_, ?_, ?_, ?_⟩
  · intro m hm
    unfold post_contact at hm
    cases hpc : parseContactMessage emailOk name email message with
    | none => rw [hpc] at hm; exact Or.inl hm
    | some msg =>
      rw [hpc] at hm
      cases cr with
      | error e => exact Or.inl hm
      | ok i =>
        simp only [List.mem_append, List.mem_singleton] at hm
        rcases hm with hm | hm
        · exact Or.inl hm
        · exact Or.inr (hm ▸ parseContactMessage_sound emailOk name email message msg hpc)
  · intro hpc
    unfold post_contact
    rw [hpc]
  · intro m hm
    unfold post_chat_message at hm
    cases hpc : parseChatMessage name content with
    | none => rw [hpc] at hm; exact Or.inl hm
    | some msg =>
      rw [hpc] at hm
      cases cr with
      | error e => exact Or.inl hm
      | ok i =>
        simp only [List.mem_append, List.mem_singleton] at hm
        rcases hm with hm | hm
        · exact Or.inl hm
        · exact Or.inr (hm ▸ parseChatMessage_sound name content msg hpc)
  · intro hpc
    unfold post_chat_message
    rw [hpc]
  · intro it hit
    unfold create_video at hit
    cases hpc : parseVideoItem title url thumbnail description created_at with
    | none => rw [hpc] at hit; exact Or.inl hit
    | some item =>
      rw [hpc] at hit
      cases cr with
      | error e => exact Or.inl hit
      | ok i =>
        simp only [List.mem_append, List.mem_singleton] at hit
        rcases hit with hit | hit
        · exact Or.inl hit
        · exact Or.inr (hit ▸ parseVideoItem_sound title url thumbnail
            description created_at item hpc)
  · intro hpc
    unfold create_video
    rw [hpc]

theorem C3_amended_witness :
    ((⟨"Jana", "jana@example.com", "Dobrý deň"⟩ : ContactMessage)
        ∈ SysState.init.contactDocs ∨
      contactConstraintsOk (fun _ => true)
        ⟨"Jana", "jana@example.com", "Dobrý deň"⟩ = true) ∧
    ((⟨"Jana", "Ahoj"⟩ : ChatMessage) ∈ SysState.init.chatDocs ∨
      chatConstraintsOk ⟨"Jana", "Ahoj"⟩ = true) :=
  ⟨(C3_amended_validated_paths_enforce_constraints (fun _ => true)
      (Except.ok "i1") "Jana" "jana@example.com" "Dobrý deň" "Ahoj" "Titulok"
      "https://e.x/v" Option.none Option.none Option.none SysState.init).1
      ⟨"Jana", "jana@example.com", "Dobrý deň"⟩ (by decide),
   (C3_amended_validated_paths_enforce_constraints (fun _ => true)
      (Except.ok "i1") "Jana" "jana@example.com" "Dobrý deň" "Ahoj" "Titulok"
      "https://e.x/v" Option.none Option.none Option.none SysState.init).2.2.1
      ⟨"Jana", "Ahoj"⟩ (by decide)⟩

/-! ### Claims about the list endpoints -/

theorem buildItems_ok_of_valid (docs : List StoredVideoDoc)
    (h : ∀ d ∈ docs,
        videoConstraintsOk (d.title.getD "") d.description = true) :
    buildItems docs = Except.ok (docs.map (fun d =>
      ⟨d.title.getD "", d.url.getD "", d.thumbnail, d.description,
       normalizeCreated d.created_at⟩)) := by
  induction docs with
  | nil => rfl
  | cons d rest ih =>
    have hd := h d (List.mem_cons_self d rest)
    have hrest := ih (fun x hx => h x (List.mem_cons_of_mem d hx))
    simp [buildItems, mkVideoItem, hd, hrest]

/-- Claim C5 (counterexample): a stored video record with no title field does
not come back with title replaced by the empty string — the empty-string
default violates the `VideoItem` title constraint (min length 2), the
constructor raises, and the whole List operation fails with a 500 instead of
succeeding. -/
theorem C5_counterexample :
    list_videos 50 (Except.ok
        [⟨Option.none, Option.some "https://e.x/v.mp4", Option.none,
          Option.none, Option.none⟩])
      = Except.error (500, "validation error") := rfl

/-- Claim C5 (amended): a missing url field is replaced by the empty string
in the returned item, and more generally each field is read with its
default; but this only yields a successful List response when every
returned record's defaulted title and description satisfy the `VideoItem`
constraints — a record with a missing title makes the whole List operation
fail with a 500 server error instead. -/
theorem C5_amended_list_videos_normalization
    (limit : Nat) (stored : List StoredVideoDoc)
    (h : ∀ d ∈ get_documents stored limit,
        videoConstraintsOk (d.title.getD "") d.description = true) :
    list_videos limit (Except.ok stored)
      = Except.ok ((get_documents stored limit).map (fun d =>
          ⟨d.title.getD "", d.url.getD "", d.thumbnail, d.description,
           normalizeCreated d.created_at⟩)) := by
  simp [list_videos, buildItems_ok_of_valid _ h]

theorem C5_amended_witness :
    list_videos 50 (Except.ok
        [⟨Option.some "Rozhovor", Option.none, Option.none, Option.none,
          Option.none⟩])
      = Except.ok [⟨"Rozhovor", "", Option.none, Option.none, Option.none⟩] := by
  have := C5_amended_list_videos_normalization 50
    [⟨Option.some "Rozhovor", Option.none, Option.none, Option.none,
      Option.none⟩] (by decide)
  simpa using this

/-- Claim C6 (counterexample): a stored `created_at` that is the empty string
is not passed through unchanged: `str(created_at) if created_at else None`
treats the empty string as falsy, so the returned item carries null rather
than the stored string "". -/
theorem C6_counterexample :
    list_videos 50 (Except.ok
        [⟨Option.some "Rozhovor", Option.some "https://e.x/v", Option.none,
          Option.none, Option.some (StoredTime.str "")⟩])
      = Except.ok [⟨"Rozhovor", "https://e.x/v", Option.none, Option.none,
          Option.none⟩] ∧
    (Option.none : Option String) ≠ Option.some "" := by
  refine ⟨rfl, by decide⟩

/-- Claim C6 (amended): the video List operation returns `created_at` as the
ISO string of a stored native datetime, passes a stored non-empty string
through unchanged, and returns null when the field is absent — but a stored
empty string is also normalized to null (it is falsy in the source's
`str(created_at) if created_at else None`). -/
theorem C6_amended_created_at_normalization
    (t u iso s : String) (ht : videoConstraintsOk t Option.none = true)
    (hs : s ≠ "") :
    list_videos 50 (Except.ok [⟨Option.some t, Option.some u, Option.none,
        Option.none, Option.some (StoredTime.dt iso)⟩])
      = Except.ok [⟨t, u, Option.none, Option.none, Option.some iso⟩] ∧
    list_videos 50 (Except.ok [⟨Option.some t, Option.some u, Option.none,
        Option.none, Option.some (StoredTime.str s)⟩])
      = Except.ok [⟨t, u, Option.none, Option.none, Option.some s⟩] ∧
    list_videos 50 (Except.ok [⟨Option.some t, Option.some u, Option.none,
        Option.none, Option.some (StoredTime.str "")⟩])
      = Except.ok [⟨t, u, Option.none, Option.none, Option.none⟩] ∧
    list_videos 50 (Except.ok [⟨Option.some t, Option.some u, Option.none,
        Option.none, Option.none⟩])
      = Except.ok [⟨t, u, Option.none, Option.none, Option.none⟩] := by
  refine ⟨?_, ?_, ?_, ?_⟩ <;>
    simp [list_videos, get_documents, buildItems, mkVideoItem,
      normalizeCreated, ht, hs]

theorem C6_amended_witness :
    list_videos 50 (Except.ok [⟨Option.some "Prejav", Option.some "u",
        Option.none, Option.none,
        Option.some (StoredTime.dt "2024-05-01T12:00:00")⟩])
      = Except.ok [⟨"Prejav", "u", Option.none, Option.none,
          Option.some "2024-05-01T12:00:00"⟩] ∧
    list_videos 50 (Except.ok [⟨Option.some "Prejav", Option.some "u",
        Option.none, Option.none, Option.some (StoredTime.str "včera")⟩])
      = Except.ok [⟨"Prejav", "u", Option.none, Option.none,
          Option.some "včera"⟩] :=
  ⟨(C6_amended_created_at_normalization "Prejav" "u" "2024-05-01T12:00:00"
      "včera" (by decide) (by decide)).1,
   (C6_amended_created_at_normalization "Prejav" "u" "2024-05-01T12:00:00"
      "včera" (by decide) (by decide)).2.1⟩

/-- Claim C7 (counterexample): a stored chat record with a missing content
field is not returned with content defaulted to "": the handler's dict
`{"name": "Pavol", "content": ""}` fails the `response_model=List[ChatMessage]`
validation (content has min length 1), so the operation returns a 500 server
error and no normalized record at all. -/
theorem C7_counterexample :
    get_chat_messages 30 (Except.ok [⟨Option.some "Pavol", Option.none⟩])
      = Except.error (500, "response validation error") ∧
    get_chat_messages 30 (Except.ok [⟨Option.some "Pavol", Option.none⟩])
      ≠ Except.ok [⟨"Pavol", ""⟩] := by
  refine ⟨rfl, fun h => ?_⟩
  rw [show get_chat_messages 30
        (Except.ok [⟨Option.some "Pavol", Option.none⟩])
      = Except.error (500, "response validation error") from rfl] at h
  exact Except.noConfusion h

/-- Claim C7 (amended): for every caller-supplied limit the chat List
operation builds at most that many records, each with name defaulted to
"Anonym" when the stored name is missing and content defaulted to "" when
missing; this normalized list is returned only when every record in it
satisfies the `ChatMessage` response-model constraints (name 2–60 chars,
content 1–500 chars) — a record whose defaulted content is empty, e.g. from
a stored record with missing content, instead makes the whole operation fail
with a 500 server error. -/
theorem C7_amended_chat_list_normalization
    (limit : Nat) (stored : List StoredChatDoc)
    (h : ∀ d ∈ get_documents stored limit,
        chatConstraintsOk ⟨d.name.getD "Anonym", d.content.getD ""⟩ = true) :
    ∃ out, get_chat_messages limit (Except.ok stored) = Except.ok out ∧
      out.length ≤ limit ∧
      out = (get_documents stored limit).map
        (fun d => ⟨d.name.getD "Anonym", d.content.getD ""⟩) := by
  have hall : ((get_documents stored limit).map
      (fun d => (⟨d.name.getD "Anonym", d.content.getD ""⟩ : ChatOut))).all
        (fun c => chatConstraintsOk ⟨c.name, c.content⟩) = true := by
    rw [List.all_eq_true]
    intro c hc
    rw [List.mem_map] at hc
    obtain ⟨d, hd, rfl⟩ := hc
    exact h d hd
  refine ⟨_, ?_, ?_, rfl⟩
  · simp [get_chat_messages, hall]
  · simp only [get_documents, List.length_map, List.length_take]
    exact Nat.min_le_left limit stored.length

theorem C7_amended_witness :
    get_chat_messages 2 (Except.ok
        [⟨Option.none, Option.some "Ahoj"⟩,
         ⟨Option.some "Eva", Option.some "Servus"⟩,
         ⟨Option.some "Jozef", Option.some "Hej"⟩])
      = Except.ok [⟨"Anonym", "Ahoj"⟩, ⟨"Eva", "Servus"⟩] ∧
    ([⟨"Anonym", "Ahoj"⟩, ⟨"Eva", "Servus"⟩] : List ChatOut).length ≤ 2 := by
  obtain ⟨out, h1, h2, h3⟩ := C7_amended_chat_list_normalization 2
    [⟨Option.none, Option.some "Ahoj"⟩,
     ⟨Option.some "Eva", Option.some "Servus"⟩,
     ⟨Option.some "Jozef", Option.some "Hej"⟩] (by decide)
  refine ⟨?_, by decide⟩
  rw [h1, h3]
  rfl

/-! ### Claims about the diagnostic endpoint -/

/-- Claim C9: whatever the database handle looks like — absent, reachable, or
raising on collection listing — and whatever the environment variables are,
`GET /test` returns status 200; a failure of `list_collection_names` is
reported inline in the response body (prefixed diagnostic string with the
exception message truncated to 50 characters) rather than propagated. -/
theorem C9_test_endpoint_always_200 (db : Option DbHandle)
    (urlSet nameSet : Bool) :
    (test_database db urlSet nameSet).1 = 200 ∧
    (∀ h e, db = Option.some h → h.listCollectionsResult = Except.error e →
      (test_database db urlSet nameSet).2.database
        = "⚠️  Connected but Error: " ++ pyTake e 50) := by
  refine ⟨rfl, ?_⟩
  intro h e hdb hl
  subst hdb
  simp [test_database, hl]

theorem C9_witness :
    (test_database (Option.some ⟨true, "mydb", Except.error "timeout"⟩)
        true false).1 = 200 ∧
    (test_database (Option.some ⟨true, "mydb", Except.error "timeout"⟩)
        true false).2.database
      = "⚠️  Connected but Error: " ++ pyTake "timeout" 50 :=
  ⟨(C9_test_endpoint_always_200
      (Option.some ⟨true, "mydb", Except.error "timeout"⟩) true false).1,
   (C9_test_endpoint_always_200
      (Option.some ⟨true, "mydb", Except.error "timeout"⟩) true false).2
      ⟨true, "mydb", Except.error "timeout"⟩ "timeout" rfl rfl⟩

/-- Claim C10: whatever list of collection names the database reports, the
`GET /test` response's collections field holds exactly the first 10 of them
(`collections[:10]`), hence never more than 10 entries. -/
theorem C10_collections_truncated_to_ten (h : DbHandle)
    (urlSet nameSet : Bool) (cols : List String)
    (hc : h.listCollectionsResult = Except.ok cols) :
    (test_database (Option.some h) urlSet nameSet).2.collections
      = cols.take 10 ∧
    (test_database (Option.some h) urlSet nameSet).2.collections.length ≤ 10 := by
  have hcoll : (test_database (Option.some h) urlSet nameSet).2.collections
      = cols.take 10 := by
    simp [test_database, hc]
  refine ⟨hcoll, ?_⟩
  rw [hcoll, List.length_take]
  exact Nat.min_le_left 10 cols.length

theorem C10_witness :
    (test_database (Option.some ⟨true, "mydb", Except.ok
        ["c01", "c02", "c03", "c04", "c05", "c06", "c07", "c08", "c09",
         "c10", "c11", "c12"]⟩) true true).2.collections
      = ["c01", "c02", "c03", "c04", "c05", "c06", "c07", "c08", "c09",
         "c10", "c11", "c12"].take 10 ∧
    (test_database (Option.some ⟨true, "mydb", Except.ok
        ["c01", "c02", "c03", "c04", "c05", "c06", "c07", "c08", "c09",
         "c10", "c11", "c12"]⟩) true true).2.collections.length ≤ 10 :=
  C10_collections_truncated_to_ten
    ⟨true, "mydb", Except.ok
      ["c01", "c02", "c03", "c04", "c05", "c06", "c07", "c08", "c09",
       "c10", "c11", "c12"]⟩ true true
    ["c01", "c02", "c03", "c04", "c05", "c06", "c07", "c08", "c09",
     "c10", "c11", "c12"] rfl

end ProfilBackend
